import Mathlib

/-!
Verification of the metadata extraction, scoring and classification engine of
the ableton-organizer repository.

The definitions below are a shallow embedding of the Python sources:

 - src/scripts/project_scanner.py : XML metadata extraction
   (extract_project_metadata), the complexity scorer
   (calculate_complexity_score), the completion classifier
   (estimate_completion_status), the per-item analysis step
   (analyze_single_project) and the SQLite projects table.
 - src/scripts/project_classifier.py : the category rule table
   (define_categories), the category classifier (determine_category), the
   priority ranker (calculate_priority) and the classification run
   (classify_all_projects).

Conventions of the embedding:

 - Python float values are modelled as rational numbers.  Python raises
   ZeroDivisionError on division by zero; the Lean functions are total
   (division by zero yields 0), so theorems that depend on a quotient carry
   an explicit nonzero hypothesis where this matters.
 - Python min / max / int are modelled by pyMin / pyMax / pyInt below, which
   reproduce the argument order and the truncation-toward-zero semantics.
 - An XML document is the XElem tree below.  ElementTree paths used by the
   scanner are modelled by descendant and child steps in document order,
   without deduplication, matching the stepwise ElementPath iteration.
   Python compares Element objects by object identity; the structural
   equality used by List.contains below agrees with it on all trees in which
   structurally equal clips are the same object, which is the only situation
   exercised by the theorems in this file.
 - The SQLite projects table is a list of Row values; INSERT OR REPLACE is
   the upsert function below, which deletes any row with the same file_path
   and inserts a fresh row in which every column that is absent from the
   INSERT column list carries its schema default.
-/

namespace AbletonOrganizer

/-! ### Python primitives -/

/-- Python min on two floats: returns the first argument on ties. -/
def pyMin (a b : ℚ) : ℚ := if a ≤ b then a else b

/-- Python max on two floats: returns the first argument on ties. -/
def pyMax (a b : ℚ) : ℚ := if b ≤ a then a else b

/-- Python int() on a float: truncation toward zero.  On a rational in lowest
terms this is truncating division of the numerator by the denominator. -/
def pyInt (q : ℚ) : Int := q.num.tdiv q.den

/-- Numeric value of a list of decimal digit characters. -/
def digitsToNat (cs : List Char) : ℕ :=
  cs.foldl (fun a c => a * 10 + (c.toNat - 48)) 0

/-- Python float(string) on the decimal core of its grammar: an optional
sign, then either a nonempty digit string, or digits around a single decimal
point with at least one digit on one side.  Exponents, infinities, nan and
surrounding whitespace are outside the fragment the documents of the scanner use
and are not modelled; every string outside the grammar yields none,
modelling the ValueError branch. -/
def pyFloat? (s : String) : Option ℚ :=
  let signed : Bool × List Char :=
    match s.data with
    | '-' :: r => (true, r)
    | '+' :: r => (false, r)
    | r => (false, r)
  let intPart := signed.2.takeWhile Char.isDigit
  let rest := signed.2.dropWhile Char.isDigit
  let mag? : Option ℚ :=
    match rest with
    | [] => if intPart.isEmpty then none else some (digitsToNat intPart : ℚ)
    | '.' :: frac =>
      if frac.all Char.isDigit && !(intPart.isEmpty && frac.isEmpty) then
        some ((digitsToNat intPart : ℚ) +
          (digitsToNat frac : ℚ) / (((10 : ℕ) ^ frac.length : ℕ) : ℚ))
      else none
    | _ => none
  mag?.map (fun v => if signed.1 then -v else v)

/-! ### XML documents and ElementTree traversal -/

/-- An XML element: tag, attributes and child elements. -/
inductive XElem where
  | mk (tag : String) (attrs : List (String × String)) (children : List XElem)
deriving Repr

/-- Tag of an element. -/
def XElem.tag : XElem → String
  | .mk t _ _ => t

/-- Attribute list of an element. -/
def XElem.attrs : XElem → List (String × String)
  | .mk _ a _ => a

/-- Child elements of an element. -/
def XElem.children : XElem → List XElem
  | .mk _ _ cs => cs

mutual

/-- All proper descendants of an element in document order, matching the
iteration order of an ElementTree descendant step. -/
def descendants : XElem → List XElem
  | .mk _ _ cs => descendantsList cs

/-- Descendant-or-self traversal of a list of sibling elements. -/
def descendantsList : List XElem → List XElem
  | [] => []
  | c :: cs => (c :: descendants c) ++ descendantsList cs

end

mutual

/-- Structural equality of elements, standing in for the object identity
Python uses in its membership tests on clip lists. -/
def XElem.beq : XElem → XElem → Bool
  | .mk t1 a1 c1, .mk t2 a2 c2 => t1 == t2 && a1 == a2 && XElem.beqList c1 c2

/-- Structural equality of element lists. -/
def XElem.beqList : List XElem → List XElem → Bool
  | [], [] => true
  | c :: cs, d :: ds => XElem.beq c d && XElem.beqList cs ds
  | _, _ => false

end

instance : BEq XElem := ⟨XElem.beq⟩

/-- Element.get(key): the value of an attribute, if present. -/
def getAttr (e : XElem) (key : String) : Option String :=
  (e.attrs.find? (fun p => p.1 == key)).map (fun p => p.2)

/-- Descendant step of an ElementTree path: all proper descendants carrying
the tag, in document order. -/
def descTag (e : XElem) (t : String) : List XElem :=
  (descendants e).filter (fun c => c.tag == t)

/-- Child step of an ElementTree path: direct children carrying the tag. -/
def childTag (e : XElem) (t : String) : List XElem :=
  e.children.filter (fun c => c.tag == t)

/-! ### The extracted metadata record (project_scanner.py lines 148-172) -/

/-- The metadata dictionary produced by extract_project_metadata. -/
structure Metadata where
  name : String
  version : String
  phase_folder : String
  track_count : ℕ
  plugin_count : ℕ
  effect_count : ℕ
  duration : ℚ
  bpm : ℚ
  key : String
  completion : String
  complexity : ℚ
  has_midi_tracks : Bool
  has_audio_tracks : Bool
  has_automation : Bool
  clip_count : ℕ
  session_clip_count : ℕ
  arrangement_clip_count : ℕ
  has_arrangement : Bool
  arrangement_duration : ℚ
  session_only : Bool
deriving DecidableEq, Repr

/-! ### Complexity scorer (project_scanner.py lines 322-373) -/

/-- calculate_complexity_score: weighted sum of structural counts with an
arrangement bonus and a session bonus, divided by 10 and capped above at 100.
The fields complexity and completion of the argument are not read; the
Python code calls this on the metadata dictionary before they are filled
in. -/
def calculate_complexity_score (m : Metadata) : ℚ :=
  let track_score : ℚ := (m.track_count : ℚ) * 10
  let plugin_score : ℚ := (m.plugin_count : ℚ) * 15
  let effect_score : ℚ := (m.effect_count : ℚ) * 8
  let automation_score : ℚ := if m.has_automation then 5 else 0
  let clip_score : ℚ := (m.clip_count : ℚ) * 2
  let audio_processing_score : ℚ :=
    if m.has_audio_tracks then (m.effect_count : ℚ) * 5 else 0
  let base0 : ℚ := track_score + plugin_score + effect_score +
    automation_score + clip_score + audio_processing_score
  let base1 : ℚ :=
    if m.has_arrangement then
      let arrangement_bonus : ℚ := (m.arrangement_clip_count : ℚ) * 5
      let arrangement_bars : ℚ := m.arrangement_duration / 4
      let arrangement_minutes : ℚ := arrangement_bars / (m.bpm / 4)
      let duration_bonus : ℚ := pyMin 30 (arrangement_minutes * 10)
      base0 + (arrangement_bonus + duration_bonus)
    else base0
  let base2 : ℚ :=
    if m.session_only then base1 + (m.session_clip_count : ℚ) * 2 else base1
  pyMin 100 (base2 / 10)

/-! ### Completion classifier (project_scanner.py lines 376-429) -/

/-- estimate_completion_status: accumulate an integer completion score over
arrangement length, session-only clip count, complexity, automation and
plugin count, then map it to one of the four status labels. -/
def estimate_completion_status (m : Metadata) : String :=
  let s0 : Int := 0
  let s1 : Int :=
    if m.has_arrangement then
      let arrangement_bars : ℚ := m.arrangement_duration / 4
      if arrangement_bars ≥ 32 then s0 + 3
      else if arrangement_bars ≥ 16 then s0 + 2
      else if arrangement_bars > 0 then s0 + 1
      else s0
    else s0
  let s2 : Int :=
    if m.session_only then
      if m.session_clip_count ≥ 16 then s1 + 1
      else if m.session_clip_count ≥ 8 then s1 + 0
      else s1 - 1
    else s1
  let s3 : Int :=
    if m.complexity ≥ 50 then s2 + 1
    else if m.complexity ≥ 25 then s2 + 0
    else s2 - 1
  let s4 : Int := if m.has_automation then s3 + 1 else s3
  let s5 : Int := if m.plugin_count ≥ 5 then s4 + 1 else s4
  if s5 ≥ 4 then "complete"
  else if s5 ≥ 2 then "work_in_progress"
  else if s5 ≥ 0 then "sketch"
  else "idea"

/-! ### Metadata extraction (project_scanner.py lines 134-319) -/

/-- Phase folder derivation: the path component following the first
"Phases" component that has a successor, else the empty string. -/
def phaseOf : List String → String
  | [] => ""
  | p :: rest =>
    if p = "Phases" then
      match rest with
      | q :: _ => q
      | [] => ""
    else phaseOf rest

/-- The LiveSet container: the root itself when tagged LiveSet, else the
first LiveSet descendant, else the root (defensive fallback). -/
def liveSetOf (xml_tree : XElem) : XElem :=
  if xml_tree.tag = "LiveSet" then xml_tree
  else ((descTag xml_tree "LiveSet").head?).getD xml_tree

/-- The track list: all Tracks/AudioTrack elements followed by all
Tracks/MidiTrack elements (descendant Tracks containers, child tracks). -/
def tracksOf (live_set : XElem) : List XElem :=
  (descTag live_set "Tracks").flatMap (fun tr => childTag tr "AudioTrack") ++
  (descTag live_set "Tracks").flatMap (fun tr => childTag tr "MidiTrack")

/-- The first Manual node under a Tempo node under a MasterTrack node, in
the stepwise document order of find(".//MasterTrack//Tempo//Manual"). -/
def findManualTempo (live_set : XElem) : Option XElem :=
  ((descTag live_set "MasterTrack").flatMap (fun mt =>
    (descTag mt "Tempo").flatMap (fun te => descTag te "Manual"))).head?

/-- BPM extraction: keep the default 120 when the Manual tempo node is
absent, when its Value attribute is absent (the integer default 120 is then
converted), or when float() raises on the attribute string. -/
def bpmOf (live_set : XElem) : ℚ :=
  match findManualTempo live_set with
  | none => 120
  | some e =>
    match getAttr e "Value" with
    | none => 120
    | some s => (pyFloat? s).getD 120

/-- Session-view clip of one ClipSlot: the first Value/MidiClip descendant
if any, else the first Value/AudioClip descendant. -/
def slotClip (slot : XElem) : Option XElem :=
  match ((descTag slot "Value").flatMap (fun v => childTag v "MidiClip")).head? with
  | some c => some c
  | none => ((descTag slot "Value").flatMap (fun v => childTag v "AudioClip")).head?

/-- Session-view clips of one track: clips found in its ClipSlotList
containers. -/
def trackSessionClips (track : XElem) : List XElem :=
  ((descTag track "ClipSlotList").flatMap (fun l => descTag l "ClipSlot")).filterMap slotClip

/-- Arrangement-view clip children of the
MainSequencer//ClipTimeable//ArrangerAutomation//Events containers of one
track. -/
def arrEventsClips (track : XElem) : List XElem :=
  ((descTag track "MainSequencer").flatMap (fun ms =>
    (descTag ms "ClipTimeable").flatMap (fun ct =>
      (descTag ct "ArrangerAutomation").flatMap (fun aa =>
        descTag aa "Events")))).flatMap (fun ev =>
    ev.children.filter (fun c => c.tag == "MidiClip" || c.tag == "AudioClip"))

/-- End-time contribution of one arrangement clip: none when the Time
attribute is missing, empty (falsy) or unparsable, or when a CurrentEnd
node is present but its Value attribute fails to parse; otherwise the clip
time plus the CurrentEnd value (default 0 when the attribute is missing) or
plus the 16-unit fallback when no CurrentEnd node exists. -/
def clipEndContribution (clip : XElem) : Option ℚ :=
  match getAttr clip "Time" with
  | none => none
  | some s =>
    if s = "" then none
    else
      match pyFloat? s with
      | none => none
      | some t =>
        match (descTag clip "CurrentEnd").head? with
        | some ce =>
          match getAttr ce "Value" with
          | none => some (t + 0)
          | some vs =>
            match pyFloat? vs with
            | none => none
            | some ev => some (t + ev)
        | none => some (t + 16)

/-- AudioClip and SampleClip children of the
Sample//ArrangerAutomation//Events containers of one track. -/
def sampleClips (track : XElem) : List XElem :=
  ((descTag track "Sample").flatMap (fun sa =>
    (descTag sa "ArrangerAutomation").flatMap (fun aa =>
      descTag aa "Events"))).flatMap (fun ev =>
    ev.children.filter (fun c => c.tag == "AudioClip" || c.tag == "SampleClip"))

/-- Fold step of the Sample alternative: append the clip and raise the
arrangement end with its Time plus 16 only when the clip is not already in
the list; the Time update is skipped for missing, empty or unparsable Time
attributes. -/
def addSampleClip (acc : List XElem × ℚ) (clip : XElem) : List XElem × ℚ :=
  if acc.1.contains clip then acc
  else
    (acc.1 ++ [clip],
      match getAttr clip "Time" with
      | none => acc.2
      | some s =>
        if s = "" then acc.2
        else
          match pyFloat? s with
          | none => acc.2
          | some t => pyMax acc.2 (t + 16))

/-- Per-track arrangement processing: first the Events containers (clips
appended unconditionally, end time raised by each parsable contribution),
then the Sample alternative with its membership check. -/
def processTrack (acc : List XElem × ℚ) (track : XElem) : List XElem × ℚ :=
  let evClips := arrEventsClips track
  let acc1 : List XElem × ℚ :=
    (acc.1 ++ evClips,
      evClips.foldl (fun mx c =>
        match clipEndContribution c with
        | some e => pyMax mx e
        | none => mx) acc.2)
  (sampleClips track).foldl addSampleClip acc1

/-- MidiClip and AudioClip children of ArrangerAutomation/Events containers
anywhere under the LiveSet (the alternative structure checked last). -/
def globalArrClips (live_set : XElem) : List XElem :=
  ((descTag live_set "ArrangerAutomation").flatMap (fun aa =>
    childTag aa "Events")).flatMap (fun ev =>
    ev.children.filter (fun c => c.tag == "MidiClip" || c.tag == "AudioClip"))

/-- Fallback duration: the largest parsable CurrentEnd Value over the given
clips (missing Value attribute counts as 0, parse failure skips the clip). -/
def fallbackDuration (clips : List XElem) : ℚ :=
  clips.foldl (fun mx c =>
    match (descTag c "CurrentEnd").head? with
    | none => mx
    | some ce =>
      match getAttr ce "Value" with
      | none => pyMax mx 0
      | some vs =>
        match pyFloat? vs with
        | none => mx
        | some v => pyMax mx v) 0

/-- extract_project_metadata: the full per-document extraction, from the
path parts, the file stem and the parsed XML tree to the metadata record,
including the derived complexity score and completion status. -/
def extract_project_metadata (pathParts : List String) (stem : String)
    (xml_tree : XElem) : Metadata :=
  let live_set := liveSetOf xml_tree
  let tracks := tracksOf live_set
  let session_clips := tracks.flatMap trackSessionClips
  let arrAcc := (globalArrClips live_set).foldl
    (fun cl c => if cl.contains c then cl else cl ++ [c])
    (tracks.foldl processTrack ([], 0)).1
  let max_arrangement_end := (tracks.foldl processTrack ([], 0)).2
  let session_clip_count := session_clips.length
  let arrangement_clip_count := arrAcc.length
  let clip_count := session_clip_count + arrangement_clip_count
  let has_arrangement : Bool :=
    decide (arrangement_clip_count > 0) || decide (max_arrangement_end > 0)
  let session_only : Bool :=
    decide (session_clip_count > 0) && !has_arrangement
  let duration : ℚ :=
    if has_arrangement && decide (max_arrangement_end > 0) then
      max_arrangement_end
    else fallbackDuration (session_clips ++ arrAcc)
  let md0 : Metadata :=
    { name := stem
      version := (getAttr xml_tree "MinorVersion").getD "unknown"
      phase_folder := phaseOf pathParts
      track_count := tracks.length
      plugin_count := (descTag live_set "PluginDevice").length
      effect_count := (descTag live_set "AudioEffectDevice").length +
        (descTag live_set "MidiEffectDevice").length
      duration := duration
      bpm := bpmOf live_set
      key := "C"
      completion := "unknown"
      complexity := 0
      has_midi_tracks := tracks.any (fun t => t.tag == "MidiTrack")
      has_audio_tracks := tracks.any (fun t => t.tag == "AudioTrack")
      has_automation := (descTag live_set "AutomationEnvelope").length > 0
      clip_count := clip_count
      session_clip_count := session_clip_count
      arrangement_clip_count := arrangement_clip_count
      has_arrangement := has_arrangement
      arrangement_duration := max_arrangement_end
      session_only := session_only }
  let md1 : Metadata := { md0 with complexity := calculate_complexity_score md0 }
  { md1 with completion := estimate_completion_status md1 }

/-! ### The projects table (project_scanner.py lines 480-520) -/

/-- Category names, in the declaration order of define_categories
(project_classifier.py lines 35-86). -/
inductive CategoryName where
  | production_ready
  | active_production
  | finished_experiments
  | development
  | complex_sketches
  | simple_ideas
deriving DecidableEq, Repr

/-- One row of the projects table.  The id primary key is omitted: no
claim depends on rowid allocation, and rows are addressed by their unique
file_path.  Booleans stand for the 0/1 integers of the schema. -/
structure Row where
  file_path : String
  file_size : ℕ
  last_modified : String
  ableton_version : String
  track_count : ℕ
  plugin_count : ℕ
  effect_count : ℕ
  duration_seconds : ℚ
  bpm : ℚ
  key_signature : String
  project_name : String
  completion_status : String
  complexity_score : ℚ
  usage_priority : Int
  analyzed : Bool
  processed : Bool
  category : Option CategoryName
  migrated : Bool
  file_hash : String
  audio_folder_size : ℕ
  has_midi_tracks : Bool
  has_audio_tracks : Bool
  has_automation : Bool
  clip_count : ℕ
  session_clip_count : ℕ
  arrangement_clip_count : ℕ
  has_arrangement : Bool
  arrangement_duration : ℚ
  session_only : Bool
  phase_folder : String
deriving DecidableEq, Repr

/-- The row written by the INSERT OR REPLACE of the scanner (project_scanner.py
lines 79-119).  Exactly the 26 listed columns are supplied; every other
column of the schema receives its default: usage_priority 0, processed 0,
category NULL, migrated 0. -/
def rowOfScan (path : String) (fileSize : ℕ) (lastModified : String)
    (fileHash : String) (audioFolderSize : ℕ) (md : Metadata) : Row :=
  { file_path := path
    file_size := fileSize
    last_modified := lastModified
    ableton_version := md.version
    track_count := md.track_count
    plugin_count := md.plugin_count
    effect_count := md.effect_count
    duration_seconds := md.duration
    bpm := md.bpm
    key_signature := md.key
    project_name := md.name
    completion_status := md.completion
    complexity_score := md.complexity
    usage_priority := 0
    analyzed := true
    processed := false
    category := none
    migrated := false
    file_hash := fileHash
    audio_folder_size := audioFolderSize
    has_midi_tracks := md.has_midi_tracks
    has_audio_tracks := md.has_audio_tracks
    has_automation := md.has_automation
    clip_count := md.clip_count
    session_clip_count := md.session_clip_count
    arrangement_clip_count := md.arrangement_clip_count
    has_arrangement := md.has_arrangement
    arrangement_duration := md.arrangement_duration
    session_only := md.session_only
    phase_folder := md.phase_folder }

/-- INSERT OR REPLACE on the UNIQUE file_path column: the conflicting row is
deleted and the fresh row inserted. -/
def upsert (store : List Row) (r : Row) : List Row :=
  store.filter (fun q => !(q.file_path == r.file_path)) ++ [r]

/-! ### Per-item analysis (project_scanner.py lines 34-131) -/

/-- Everything analyze_single_project obtains before touching the store:
the parsed tree, the path decomposition, the file stat values, the audio
folder size and the content hash. -/
structure ScanInput where
  tree : XElem
  pathParts : List String
  stem : String
  fileSize : ℕ
  lastModified : String
  audioFolderSize : ℕ
  fileHash : String

/-- The per-item result dictionary of analyze_single_project. -/
structure AnalyzeResult where
  file : String
  success : Bool
  error : Option String
deriving DecidableEq, Repr

/-- analyze_single_project: the whole body runs under one try block.  An
input that fails to decompress, read or parse is the Except.error case: the
exception is caught, recorded in the result, and the store is left exactly
as it was; a successful extraction upserts one analyzed row and commits. -/
def analyze_single_project (path : String) (input : Except String ScanInput)
    (store : List Row) : AnalyzeResult × List Row :=
  match input with
  | .error e => ({ file := path, success := false, error := some e }, store)
  | .ok it =>
    let md := extract_project_metadata it.pathParts it.stem it.tree
    ({ file := path, success := true, error := none },
      upsert store (rowOfScan path it.fileSize it.lastModified it.fileHash
        it.audioFolderSize md))

/-- The aggregation loop of the orchestrator: every enumerated item is analyzed
in turn against the store and contributes exactly one result record. -/
def scan_batch (items : List (String × Except String ScanInput))
    (store : List Row) : List AnalyzeResult × List Row :=
  items.foldl (fun acc it =>
    let step := analyze_single_project it.1 it.2 acc.2
    (acc.1 ++ [step.1], step.2)) ([], store)

/-! ### Category rules (project_classifier.py lines 35-86) -/

/-- The rule record of one category definition. -/
structure CategoryRules where
  completion_required : List String
  complexity_min : ℚ
  complexity_max : ℚ
  duration_min : ℚ
  priority_multiplier : ℚ
deriving DecidableEq, Repr

/-- The rule table of define_categories, as a function of the name. -/
def catRules : CategoryName → CategoryRules
  | .production_ready =>
    { completion_required := ["complete"]
      complexity_min := 60, complexity_max := 100
      duration_min := 120, priority_multiplier := 1 }
  | .active_production =>
    { completion_required := ["work_in_progress"]
      complexity_min := 40, complexity_max := 100
      duration_min := 60, priority_multiplier := 4/5 }
  | .finished_experiments =>
    { completion_required := ["complete"]
      complexity_min := 0, complexity_max := 60
      duration_min := 30, priority_multiplier := 3/5 }
  | .development =>
    { completion_required := ["work_in_progress"]
      complexity_min := 20, complexity_max := 70
      duration_min := 30, priority_multiplier := 2/5 }
  | .complex_sketches =>
    { completion_required := ["sketch"]
      complexity_min := 30, complexity_max := 100
      duration_min := 0, priority_multiplier := 3/10 }
  | .simple_ideas =>
    { completion_required := ["sketch"]
      complexity_min := 0, complexity_max := 30
      duration_min := 0, priority_multiplier := 1/10 }

/-- Iteration order of the category dictionary: Python dictionaries iterate
in insertion order, so classification scans the table in declaration
order. -/
def category_definitions : List CategoryName :=
  [.production_ready, .active_production, .finished_experiments,
   .development, .complex_sketches, .simple_ideas]

/-- Declaration index of a category in the rule table. -/
def declIdx : CategoryName → ℕ
  | .production_ready => 0
  | .active_production => 1
  | .finished_experiments => 2
  | .development => 3
  | .complex_sketches => 4
  | .simple_ideas => 5

/-- Membership test of determine_category: the completion status is in the
allowed list, the complexity lies in the inclusive range, and the duration
reaches the minimum. -/
def categoryMatches (p : Row) (c : CategoryName) : Bool :=
  let r := catRules c
  r.completion_required.contains p.completion_status &&
  decide (r.complexity_min ≤ p.complexity_score) &&
  decide (p.complexity_score ≤ r.complexity_max) &&
  decide (p.duration_seconds ≥ r.duration_min)

/-! ### Category classifier (project_classifier.py lines 132-171) -/

/-- determine_category: collect the matching categories in declaration
order and return the first; when none matches, the fallback ladder keyed by
completion status with strict complexity thresholds 50, 40 and 30 decides. -/
def determine_category (p : Row) : CategoryName :=
  match category_definitions.filter (categoryMatches p) with
  | c :: _ => c
  | [] =>
    if p.completion_status = "complete" then
      if p.complexity_score > 50 then .production_ready
      else .finished_experiments
    else if p.completion_status = "work_in_progress" then
      if p.complexity_score > 40 then .active_production
      else .development
    else
      if p.complexity_score > 30 then .complex_sketches
      else .simple_ideas

/-! ### Priority ranker (project_classifier.py lines 173-216) -/

/-- calculate_priority.  The recency factor parses the last_modified text
and subtracts it from the wall clock; daysOld is the outcome of that
computation, none standing for the ValueError / TypeError branch that
resets the recency bonus to 0. -/
def calculate_priority (p : Row) (category : CategoryName)
    (daysOld : Option Int) : Int :=
  let base_score : ℚ := 50
  let category_score : ℚ := base_score * (catRules category).priority_multiplier
  let complexity_bonus : ℚ := p.complexity_score / 100 * 20
  let duration_minutes : ℚ := p.duration_seconds / 60
  let duration_bonus : ℚ := pyMin 10 (duration_minutes / 6)
  let audio_size_gb : ℚ := (p.audio_folder_size : ℚ) / (1024 ^ 3 : ℕ)
  let audio_bonus : ℚ := pyMin 15 (audio_size_gb * 5)
  let track_bonus : ℚ := pyMin 10 ((p.track_count : ℚ) / 2)
  let recency_bonus : ℚ :=
    match daysOld with
    | none => 0
    | some d => pyMax 0 (10 - (d : ℚ) / 30)
  let final_priority : ℚ := category_score + complexity_bonus +
    duration_bonus + audio_bonus + track_bonus + recency_bonus
  pyInt (pyMax 0 (pyMin 100 final_priority))

/-! ### Classification run (project_classifier.py lines 88-121, 218-227) -/

/-- The reset statement at the top of classify_all_projects: UPDATE with no
WHERE clause clears processed, category and usage_priority on every row. -/
def resetRow (r : Row) : Row :=
  { r with processed := false, category := none, usage_priority := 0 }

/-- get_unclassified_projects: SELECT the analyzed, unprocessed rows and
convert each fetched row with dict(row).  The connection is opened without
a row_factory (project_classifier.py line 19), so every fetched row is a
plain tuple whose first element is the integer id column, and dict() on it
raises TypeError at the first row; the conversion succeeds only on an
empty selection. -/
def get_unclassified_projects (rows : List Row) : Except String (List Row) :=
  match rows.filter (fun r => r.analyzed && !r.processed) with
  | [] => .ok []
  | _ :: _ =>
    .error "TypeError: cannot convert dictionary update sequence element #0 to a sequence"

/-- classify_all_projects: the reset UPDATE (no WHERE clause) runs and
commits first; then get_unclassified_projects fetches the work list.  When
that raises, the exception propagates out of the run (nothing catches it)
and the store is left in the committed reset state; otherwise each
selected row receives its category, priority and processed flag through
the per-row UPDATE keyed by the unique path.  The first component is the
outcome of the run, the second the store it leaves behind; clock maps a
last_modified text to the daysOld outcome of the recency computation. -/
def classify_all_projects (clock : String → Option Int)
    (rows : List Row) : Except String Unit × List Row :=
  let reset := rows.map resetRow
  match get_unclassified_projects reset with
  | .error e => (.error e, reset)
  | .ok projects =>
    (.ok (), projects.foldl (fun st pr =>
      st.map (fun r =>
        if r.file_path = pr.file_path then
          let c := determine_category pr
          { r with category := some c
                   usage_priority := calculate_priority pr c (clock pr.last_modified)
                   processed := true }
        else r)) reset)

/-! ## Shared helper lemmas -/

theorem pyMin_le_left (a b : ℚ) : pyMin a b ≤ a := by
  unfold pyMin
  split
  · exact le_refl a
  · exact le_of_not_le (by assumption)

theorem le_pyMin (a b c : ℚ) (ha : c ≤ a) (hb : c ≤ b) : c ≤ pyMin a b := by
  unfold pyMin
  split
  · exact ha
  · exact hb

theorem pyMax_le (a b c : ℚ) (ha : a ≤ c) (hb : b ≤ c) : pyMax a b ≤ c := by
  unfold pyMax
  split
  · exact ha
  · exact hb

theorem le_pyMax_left (a b : ℚ) : a ≤ pyMax a b := by
  unfold pyMax
  split
  · exact le_refl a
  · exact le_of_not_le (by assumption)

theorem le_pyMax_right (a b : ℚ) : b ≤ pyMax a b := by
  unfold pyMax
  split
  · assumption
  · exact le_refl b

theorem pyInt_eq_floor (q : ℚ) (h : 0 ≤ q) : pyInt q = ⌊q⌋ := by
  unfold pyInt
  rw [Rat.floor_def]
  exact Int.tdiv_eq_ediv (Rat.num_nonneg.mpr h) (Int.ofNat_nonneg _)

theorem pyInt_bounds (q : ℚ) (h0 : 0 ≤ q) (h1 : q ≤ 100) :
    0 ≤ pyInt q ∧ pyInt q ≤ 100 := by
  rw [pyInt_eq_floor q h0]
  refine ⟨Int.le_floor.mpr (by exact_mod_cast h0), ?_⟩
  have h2 := Int.floor_le_floor h1
  simpa using h2

/-! ## Claim theorems -/

/-- C9: for every extracted metadata record, has_arrangement is true iff the
arrangement-clip count is positive or the arrangement duration is positive,
session_only is true iff the session-clip count is positive and
has_arrangement is false, and the two flags are never both true. -/
theorem claim_C9_view_flags (pp : List String) (stem : String) (tree : XElem) :
    ((extract_project_metadata pp stem tree).has_arrangement = true ↔
      (0 < (extract_project_metadata pp stem tree).arrangement_clip_count ∨
       0 < (extract_project_metadata pp stem tree).arrangement_duration)) ∧
    ((extract_project_metadata pp stem tree).session_only = true ↔
      (0 < (extract_project_metadata pp stem tree).session_clip_count ∧
       (extract_project_metadata pp stem tree).has_arrangement = false)) ∧
    ¬((extract_project_metadata pp stem tree).has_arrangement = true ∧
      (extract_project_metadata pp stem tree).session_only = true) := by
  have harr : (extract_project_metadata pp stem tree).has_arrangement = true ↔
      (0 < (extract_project_metadata pp stem tree).arrangement_clip_count ∨
       0 < (extract_project_metadata pp stem tree).arrangement_duration) := by
    unfold extract_project_metadata
    dsimp only
    simp [Bool.or_eq_true, decide_eq_true_eq]
  have hses : (extract_project_metadata pp stem tree).session_only = true ↔
      (0 < (extract_project_metadata pp stem tree).session_clip_count ∧
       (extract_project_metadata pp stem tree).has_arrangement = false) := by
    unfold extract_project_metadata
    dsimp only
    simp [Bool.and_eq_true, decide_eq_true_eq]
  refine ⟨harr, hses, ?_⟩
  rintro ⟨ha, hs⟩
  rw [(hses.mp hs).2] at ha
  exact Bool.false_ne_true ha

/-- Completion scoring as claim C2 words it: the arrangement band adds
+1/+2/+3 for arrangement length at least 0 / at least 16 / at least 32 bars
(so the lowest band applies to every record), the session-only band adds
-1/0/+1 for session clip counts below 8 / 8 to 15 / at least 16, the
complexity band adds -1/0/+1 below 25 / 25 to 49 / at least 50, automation
adds +1 and a plugin count of at least 5 adds +1. -/
def completionScoreSpecC2 (m : Metadata) : Int :=
  (if m.arrangement_duration / 4 ≥ 32 then 3
   else if m.arrangement_duration / 4 ≥ 16 then 2
   else 1) +
  (if m.session_only then
    (if m.session_clip_count ≥ 16 then 1
     else if m.session_clip_count ≥ 8 then 0
     else -1)
   else 0) +
  (if m.complexity ≥ 50 then 1 else if m.complexity ≥ 25 then 0 else -1) +
  (if m.has_automation then 1 else 0) +
  (if m.plugin_count ≥ 5 then 1 else 0)

/-- Completion scoring as the code computes it, amended from claim C2: the
arrangement band applies only to records with arrangement content and its
lowest step requires strictly positive bars; everything else is as the
claim states. -/
def completionScoreAmendedC2 (m : Metadata) : Int :=
  (if m.has_arrangement then
    (if m.arrangement_duration / 4 ≥ 32 then 3
     else if m.arrangement_duration / 4 ≥ 16 then 2
     else if m.arrangement_duration / 4 > 0 then 1
     else 0)
   else 0) +
  (if m.session_only then
    (if m.session_clip_count ≥ 16 then 1
     else if m.session_clip_count ≥ 8 then 0
     else -1)
   else 0) +
  (if m.complexity ≥ 50 then 1 else if m.complexity ≥ 25 then 0 else -1) +
  (if m.has_automation then 1 else 0) +
  (if m.plugin_count ≥ 5 then 1 else 0)

/-- The threshold table of claim C2, inclusive on each lower bound. -/
def statusOfScore (t : Int) : String :=
  if t ≥ 4 then "complete"
  else if t ≥ 2 then "work_in_progress"
  else if t ≥ 0 then "sketch"
  else "idea"

/-- The all-zero metadata record: no tracks, no clips, no arrangement, no
automation, default tempo.  It is the record extracted from an empty
LiveSet document. -/
def mzRec : Metadata :=
  { name := "z", version := "unknown", phase_folder := "", track_count := 0,
    plugin_count := 0, effect_count := 0, duration := 0, bpm := 120,
    key := "C", completion := "unknown", complexity := 0,
    has_midi_tracks := false, has_audio_tracks := false,
    has_automation := false, clip_count := 0, session_clip_count := 0,
    arrangement_clip_count := 0, has_arrangement := false,
    arrangement_duration := 0, session_only := false }

unseal Rat.inv Rat.mul Rat.add Rat.sub in
/-- C2, counterexample: on the all-zero record the code scores
0 (arrangement band) - 1 (complexity band) = -1 and answers idea, while the
claimed scoring gives +1 (arrangement length 0 falls in the lowest claimed
band) - 1 = 0 and would answer sketch. -/
theorem claim_C2_counterexample :
    estimate_completion_status mzRec = "idea" ∧
    statusOfScore (completionScoreSpecC2 mzRec) = "sketch" := by
  constructor
  · decide
  · decide

/-- The sequential accumulator of estimate_completion_status, factored out
for comparison with the claimed additive form. -/
def completionScoreCode (m : Metadata) : Int :=
  let s0 : Int := 0
  let s1 : Int :=
    if m.has_arrangement then
      let arrangement_bars : ℚ := m.arrangement_duration / 4
      if arrangement_bars ≥ 32 then s0 + 3
      else if arrangement_bars ≥ 16 then s0 + 2
      else if arrangement_bars > 0 then s0 + 1
      else s0
    else s0
  let s2 : Int :=
    if m.session_only then
      if m.session_clip_count ≥ 16 then s1 + 1
      else if m.session_clip_count ≥ 8 then s1 + 0
      else s1 - 1
    else s1
  let s3 : Int :=
    if m.complexity ≥ 50 then s2 + 1
    else if m.complexity ≥ 25 then s2 + 0
    else s2 - 1
  let s4 : Int := if m.has_automation then s3 + 1 else s3
  if m.plugin_count ≥ 5 then s4 + 1 else s4

theorem ifAdd4 (b c1 c2 c3 : Prop) [Decidable b] [Decidable c1] [Decidable c2]
    [Decidable c3] (s : Int) :
    (if b then (if c1 then s + 3 else if c2 then s + 2 else if c3 then s + 1 else s)
     else s) =
    s + (if b then (if c1 then 3 else if c2 then 2 else if c3 then 1 else 0) else 0) := by
  split_ifs <;> omega

theorem ifAdd3g (b c1 c2 : Prop) [Decidable b] [Decidable c1] [Decidable c2] (s : Int) :
    (if b then (if c1 then s + 1 else if c2 then s + 0 else s - 1) else s) =
    s + (if b then (if c1 then 1 else if c2 then 0 else -1) else 0) := by
  split_ifs <;> omega

theorem ifAdd3 (c1 c2 : Prop) [Decidable c1] [Decidable c2] (s : Int) :
    (if c1 then s + 1 else if c2 then s + 0 else s - 1) =
    s + (if c1 then 1 else if c2 then 0 else -1) := by
  split_ifs <;> omega

theorem ifAdd1 (b : Prop) [Decidable b] (s : Int) :
    (if b then s + 1 else s) = s + (if b then 1 else 0) := by
  split_ifs <;> omega

theorem completionScoreCode_eq_amended (m : Metadata) :
    completionScoreCode m = completionScoreAmendedC2 m := by
  unfold completionScoreCode completionScoreAmendedC2
  dsimp only
  rw [ifAdd1, ifAdd1, ifAdd3, ifAdd3g, ifAdd4]
  omega

/-- C2, amended: estimate_completion_status computes exactly the amended
score (the arrangement band gated by has_arrangement, its lowest step
requiring strictly positive bars) and maps it through the claimed
inclusive thresholds 4 / 2 / 0. -/
theorem claim_C2_completion_scoring (m : Metadata) :
    estimate_completion_status m = statusOfScore (completionScoreAmendedC2 m) := by
  have h1 : estimate_completion_status m = statusOfScore (completionScoreCode m) := rfl
  rw [h1, completionScoreCode_eq_amended]

theorem scan_batch_length_aux (items : List (String × Except String ScanInput))
    (acc : List AnalyzeResult × List Row) :
    (items.foldl (fun acc it =>
      let step := analyze_single_project it.1 it.2 acc.2
      (acc.1 ++ [step.1], step.2)) acc).1.length = acc.1.length + items.length := by
  induction items generalizing acc with
  | nil => simp
  | cons it rest ih =>
    simp only [List.foldl_cons, List.length_cons]
    rw [ih]
    simp
    omega

/-- C6: an input whose extraction raises is reported as a per-item failure
record carrying the path and the error text, the store is left untouched
for that path (no insert, no analyzed mark), and the exception never
escapes: the batch always yields one result per enumerated item. -/
theorem claim_C6_failure_isolation :
    (∀ (path e : String) (store : List Row),
      analyze_single_project path (Except.error e) store =
        ({ file := path, success := false, error := some e }, store)) ∧
    (∀ (items : List (String × Except String ScanInput)) (store : List Row),
      (scan_batch items store).1.length = items.length) := by
  constructor
  · intro path e store
    rfl
  · intro items store
    unfold scan_batch
    rw [scan_batch_length_aux]
    simp

/-- C8: membership in the upserted store splits into the survivors of the
filter and the fresh row. -/
theorem mem_upsert (store : List Row) (nr r : Row) (hr : r ∈ upsert store nr) :
    (r ∈ store ∧ ¬(r.file_path = nr.file_path)) ∨ r = nr := by
  unfold upsert at hr
  rcases List.mem_append.mp hr with h | h
  · left
    have := List.mem_filter.mp h
    refine ⟨this.1, ?_⟩
    intro heq
    have hb := this.2
    rw [heq] at hb
    simp at hb
  · right
    simpa using h

/-- C8: a re-scan of a path that already has a row replaces the whole row:
the columns absent from the INSERT column list (usage_priority, processed,
category, migrated) revert to their schema defaults 0 / 0 / NULL / 0, so
prior classification results and the migrated flag are erased, and the
fresh row is marked analyzed. -/
theorem claim_C8_rescan_resets (store : List Row) (prior : Row) (path : String)
    (_hprior : prior ∈ store) (_hpath : prior.file_path = path)
    (fileSize : ℕ) (lastModified fileHash : String) (audioFolderSize : ℕ)
    (md : Metadata) (r : Row)
    (hr : r ∈ upsert store
      (rowOfScan path fileSize lastModified fileHash audioFolderSize md))
    (hrpath : r.file_path = path) :
    r.usage_priority = 0 ∧ r.processed = false ∧ r.category = none ∧
    r.migrated = false ∧ r.analyzed = true := by
  rcases mem_upsert store _ r hr with ⟨_, hne⟩ | heq
  · exact absurd (by simpa [rowOfScan] using hrpath) hne
  · rw [heq]
    exact ⟨rfl, rfl, rfl, rfl, rfl⟩

/-- A prior row as it would stand after classification and migration: all
four columns that a re-scan is claimed to reset carry non-default values. -/
def priorRowC8 : Row :=
  { file_path := "a.als", file_size := 10, last_modified := "2024-01-01",
    ableton_version := "11", track_count := 2, plugin_count := 1,
    effect_count := 0, duration_seconds := 64, bpm := 120,
    key_signature := "C", project_name := "a", completion_status := "sketch",
    complexity_score := 10, usage_priority := 55, analyzed := true,
    processed := true, category := some .simple_ideas, migrated := true,
    file_hash := "h", audio_folder_size := 0, has_midi_tracks := true,
    has_audio_tracks := false, has_automation := false, clip_count := 2,
    session_clip_count := 2, arrangement_clip_count := 0,
    has_arrangement := false, arrangement_duration := 0,
    session_only := true, phase_folder := "" }

/-- C8, witness: re-scanning the path of priorRowC8 leaves the row at that
path with the four schema defaults restored. -/
theorem claim_C8_rescan_resets_witness :
    (rowOfScan "a.als" 11 "2024-02-02" "h2" 0 mzRec).usage_priority = 0 ∧
    (rowOfScan "a.als" 11 "2024-02-02" "h2" 0 mzRec).processed = false ∧
    (rowOfScan "a.als" 11 "2024-02-02" "h2" 0 mzRec).category = none ∧
    (rowOfScan "a.als" 11 "2024-02-02" "h2" 0 mzRec).migrated = false ∧
    (rowOfScan "a.als" 11 "2024-02-02" "h2" 0 mzRec).analyzed = true :=
  claim_C8_rescan_resets [priorRowC8] priorRowC8 "a.als" (by decide) (by decide)
    11 "2024-02-02" "h2" 0 mzRec _ (by decide) (by decide)

/-- The priority formula exactly as claim C3 (and the inline code
comment, Max 10 points for 6+ minutes) states the duration bonus: linear in
minutes, reaching its cap of 10 at 6 minutes.  All other addends are as in
calculate_priority. -/
def calculate_priority_specC3 (p : Row) (category : CategoryName)
    (daysOld : Option Int) : Int :=
  let base_score : ℚ := 50
  let category_score : ℚ := base_score * (catRules category).priority_multiplier
  let complexity_bonus : ℚ := p.complexity_score / 100 * 20
  let duration_minutes : ℚ := p.duration_seconds / 60
  let duration_bonus : ℚ := pyMin 10 (duration_minutes * (10 / 6))
  let audio_size_gb : ℚ := (p.audio_folder_size : ℚ) / (1024 ^ 3 : ℕ)
  let audio_bonus : ℚ := pyMin 15 (audio_size_gb * 5)
  let track_bonus : ℚ := pyMin 10 ((p.track_count : ℚ) / 2)
  let recency_bonus : ℚ :=
    match daysOld with
    | none => 0
    | some d => pyMax 0 (10 - (d : ℚ) / 30)
  let final_priority : ℚ := category_score + complexity_bonus +
    duration_bonus + audio_bonus + track_bonus + recency_bonus
  pyInt (pyMax 0 (pyMin 100 final_priority))

/-- A row whose only nonzero priority ingredient is a duration of exactly
6 minutes (360 seconds); its last_modified text is empty, so the recency
parse fails and contributes 0. -/
def rowC3 : Row :=
  { file_path := "d.als", file_size := 0, last_modified := "",
    ableton_version := "11", track_count := 0, plugin_count := 0,
    effect_count := 0, duration_seconds := 360, bpm := 120,
    key_signature := "C", project_name := "d", completion_status := "sketch",
    complexity_score := 0, usage_priority := 0, analyzed := true,
    processed := false, category := none, migrated := false, file_hash := "h",
    audio_folder_size := 0, has_midi_tracks := false,
    has_audio_tracks := false, has_automation := false, clip_count := 0,
    session_clip_count := 0, arrangement_clip_count := 0,
    has_arrangement := false, arrangement_duration := 0,
    session_only := false, phase_folder := "" }

unseal Rat.inv Rat.mul Rat.add Rat.sub in
/-- C3: at a 6-minute project the code awards a duration bonus of
min(10, 6/6) = 1 - its saturation point is 60 minutes, not the 6 minutes
stated by the claim and by the inline comment in the code - so the computed
priority is 6 where the documented formula yields 15. -/
theorem claim_C3_duration_bonus_bug :
    calculate_priority rowC3 .simple_ideas none = 6 ∧
    calculate_priority_specC3 rowC3 .simple_ideas none = 15 := by
  constructor
  · decide
  · decide

/-- A record with the exact fields of the C7 scenario: 160 beat-units of
arrangement (40 bars), 120 BPM, 8 tracks, 3 plugins, automation present,
one arrangement clip, no effects and no session clips.  The complexity
field is still the pre-scoring placeholder 0, as when the scorer runs. -/
def m7base : Metadata :=
  { name := "s", version := "11", phase_folder := "", track_count := 8,
    plugin_count := 3, effect_count := 0, duration := 160, bpm := 120,
    key := "C", completion := "unknown", complexity := 0,
    has_midi_tracks := true, has_audio_tracks := false,
    has_automation := true, clip_count := 1, session_clip_count := 0,
    arrangement_clip_count := 1, has_arrangement := true,
    arrangement_duration := 160, session_only := false }

unseal Rat.inv Rat.mul Rat.add Rat.sub in
/-- C7, counterexample: in the claimed scenario with few clips the
complexity score is 451/30, below 25, so the complexity band subtracts 1
and the completion total is 3 + 1 - 1 = 3, giving work_in_progress rather
than the claimed complete. -/
theorem claim_C7_counterexample :
    calculate_complexity_score m7base = 451 / 30 ∧
    estimate_completion_status
      { m7base with complexity := calculate_complexity_score m7base } =
      "work_in_progress" := by
  constructor
  · decide
  · decide

/-- C7, amended: the scenario record reaches completion score at least 4
and status complete exactly when its complexity score reaches 25, so that
the complexity band does not subtract 1; session_only is false, which
extraction guarantees whenever arrangement content is present. -/
theorem claim_C7_complete_scenario (m : Metadata)
    (hdur : m.arrangement_duration = 160) (_hbpm : m.bpm = 120)
    (_htr : m.track_count = 8) (hpl : m.plugin_count = 3)
    (hauto : m.has_automation = true) (harr : m.has_arrangement = true)
    (hses : m.session_only = false) (hcx : 25 ≤ m.complexity) :
    estimate_completion_status m = "complete" := by
  unfold estimate_completion_status
  norm_num [hdur, hpl, hauto, harr, hses]
  rcases le_or_lt 50 m.complexity with h50 | h50
  · norm_num [h50]
  · norm_num [not_le.mpr h50, hcx]

/-- C7, witness: the scenario record with complexity 30 is classified
complete. -/
theorem claim_C7_complete_scenario_witness :
    estimate_completion_status { m7base with complexity := 30 } = "complete" :=
  claim_C7_complete_scenario { m7base with complexity := 30 }
    rfl rfl rfl rfl rfl rfl rfl (by norm_num)

theorem evfold_le (l : List XElem) (mx : ℚ) :
    mx ≤ l.foldl (fun mx c =>
      match clipEndContribution c with
      | some e => pyMax mx e
      | none => mx) mx := by
  induction l generalizing mx with
  | nil => simp
  | cons c rest ih =>
    simp only [List.foldl_cons]
    refine le_trans ?_ (ih _)
    cases clipEndContribution c with
    | none => simp
    | some e => simpa using le_pyMax_left mx e

theorem addSampleClip_le (acc : List XElem × ℚ) (c : XElem) :
    acc.2 ≤ (addSampleClip acc c).2 := by
  unfold addSampleClip
  split
  · exact le_refl _
  · dsimp only
    cases getAttr c "Time" with
    | none => exact le_refl _
    | some s =>
      dsimp only
      split
      · exact le_refl _
      · cases pyFloat? s with
        | none => exact le_refl _
        | some t => simpa using le_pyMax_left acc.2 (t + 16)

theorem samplefold_le (l : List XElem) (acc : List XElem × ℚ) :
    acc.2 ≤ (l.foldl addSampleClip acc).2 := by
  induction l generalizing acc with
  | nil => simp
  | cons c rest ih =>
    simp only [List.foldl_cons]
    exact le_trans (addSampleClip_le acc c) (ih _)

theorem processTrack_le (acc : List XElem × ℚ) (t : XElem) :
    acc.2 ≤ (processTrack acc t).2 := by
  unfold processTrack
  dsimp only
  refine le_trans ?_ (samplefold_le _ _)
  exact evfold_le _ _

theorem tracksfold_le (l : List XElem) (acc : List XElem × ℚ) :
    acc.2 ≤ (l.foldl processTrack acc).2 := by
  induction l generalizing acc with
  | nil => simp
  | cons t rest ih =>
    simp only [List.foldl_cons]
    exact le_trans (processTrack_le acc t) (ih _)

theorem extract_arrdur_nonneg (pp : List String) (stem : String) (tree : XElem) :
    0 ≤ (extract_project_metadata pp stem tree).arrangement_duration := by
  unfold extract_project_metadata
  dsimp only
  exact tracksfold_le _ _

theorem csc_nonneg (m : Metadata) (had : 0 ≤ m.arrangement_duration)
    (hbpm : 0 < m.bpm) : 0 ≤ calculate_complexity_score m := by
  unfold calculate_complexity_score
  dsimp only
  refine le_pyMin _ _ _ (by norm_num) (div_nonneg ?_ (by norm_num))
  have hb : (0:ℚ) ≤ (m.track_count : ℚ) * 10 + (m.plugin_count : ℚ) * 15 +
      (m.effect_count : ℚ) * 8 + (if m.has_automation then (5:ℚ) else 0) +
      (m.clip_count : ℚ) * 2 +
      (if m.has_audio_tracks then (m.effect_count : ℚ) * 5 else 0) := by
    have h1 : (0:ℚ) ≤ (if m.has_automation then (5:ℚ) else 0) := by
      split <;> norm_num
    have h2 : (0:ℚ) ≤ (if m.has_audio_tracks then (m.effect_count : ℚ) * 5 else 0) := by
      split
      · positivity
      · exact le_refl 0
    exact add_nonneg (add_nonneg (add_nonneg (add_nonneg (add_nonneg
      (by positivity) (by positivity)) (by positivity)) h1) (by positivity)) h2
  have hdb : (0:ℚ) ≤ pyMin 30 (m.arrangement_duration / 4 / (m.bpm / 4) * 10) := by
    refine le_pyMin _ _ _ (by norm_num) ?_
    have hq : (0:ℚ) ≤ m.arrangement_duration / 4 / (m.bpm / 4) :=
      div_nonneg (div_nonneg had (by norm_num)) (div_nonneg hbpm.le (by norm_num))
    exact mul_nonneg hq (by norm_num)
  split
  · split
    · exact add_nonneg (add_nonneg hb (add_nonneg (by positivity) hdb)) (by positivity)
    · exact add_nonneg hb (by positivity)
  · split
    · exact add_nonneg hb (add_nonneg (by positivity) hdb)
    · exact hb

/-- A document whose Manual tempo node declares the parser-accepted value
-1 and whose single arrangement clip ends at 1000 beat-units. -/
def ctree : XElem :=
  .mk "LiveSet" []
    [ .mk "MasterTrack" [] [ .mk "Tempo" [] [ .mk "Manual" [("Value", "-1")] [] ] ],
      .mk "Tracks" []
        [ .mk "MidiTrack" []
            [ .mk "MainSequencer" []
                [ .mk "ClipTimeable" []
                    [ .mk "ArrangerAutomation" []
                        [ .mk "Events" []
                            [ .mk "MidiClip" [("Time", "0")]
                                [ .mk "CurrentEnd" [("Value", "1000")] [] ] ] ] ] ] ] ] ]

unseal Rat.inv Rat.mul Rat.add Rat.sub in
/-- C1, counterexample: the record extracted from ctree carries the
parser-accepted tempo -1, and its complexity score is -9983/10: the scorer
caps only from above, so the score escapes below 0 and is not hard-clamped
at both ends. -/
theorem claim_C1_counterexample :
    (extract_project_metadata [] "x" ctree).bpm = -1 ∧
    (extract_project_metadata [] "x" ctree).complexity < 0 := by
  constructor
  · decide
  · decide

/-- C1, amended: the complexity score is clamped above at 100 for every
record, and is nonnegative for every record with nonnegative arrangement
duration (which extraction always produces) and positive tempo; it has no
lower clamp for negative parsed tempos.  The usage priority is hard-clamped
into [0,100] at both ends for every row. -/
theorem claim_C1_score_clamps :
    (∀ m : Metadata, calculate_complexity_score m ≤ 100) ∧
    (∀ m : Metadata, 0 ≤ m.arrangement_duration → 0 < m.bpm →
      0 ≤ calculate_complexity_score m) ∧
    (∀ (pp : List String) (stem : String) (tree : XElem),
      0 ≤ (extract_project_metadata pp stem tree).arrangement_duration) ∧
    (∀ (p : Row) (c : CategoryName) (d : Option Int),
      0 ≤ calculate_priority p c d ∧ calculate_priority p c d ≤ 100) := by
  refine ⟨?_, csc_nonneg, extract_arrdur_nonneg, ?_⟩
  · intro m
    unfold calculate_complexity_score
    dsimp only
    exact pyMin_le_left _ _
  · intro p c d
    unfold calculate_priority
    dsimp only
    apply pyInt_bounds
    · exact le_pyMax_left _ _
    · exact pyMax_le _ _ _ (by norm_num) (pyMin_le_left _ _)

unseal Rat.inv Rat.mul Rat.add Rat.sub in
/-- C1, witness: the clamp bounds evaluated on concrete inputs, with the
hypotheses of the amended statement discharged on the all-zero record. -/
theorem claim_C1_score_clamps_witness :
    calculate_complexity_score mzRec ≤ 100 ∧
    0 ≤ calculate_complexity_score mzRec ∧
    0 ≤ (extract_project_metadata [] "e" (XElem.mk "LiveSet" [] [])).arrangement_duration ∧
    (0 ≤ calculate_priority rowC3 .simple_ideas none ∧
     calculate_priority rowC3 .simple_ideas none ≤ 100) :=
  ⟨claim_C1_score_clamps.1 mzRec,
   claim_C1_score_clamps.2.1 mzRec (by decide) (by decide),
   claim_C1_score_clamps.2.2.1 [] "e" (XElem.mk "LiveSet" [] []),
   claim_C1_score_clamps.2.2.2 rowC3 .simple_ideas none⟩

theorem filter_head_least {α : Type} [DecidableEq α] (f : α → Bool) :
    ∀ (l : List α) (c : α) (cs : List α), l.filter f = c :: cs →
      f c = true ∧ c ∈ l ∧ ∀ b ∈ l, f b = true → l.indexOf c ≤ l.indexOf b := by
  intro l
  induction l with
  | nil =>
    intro c cs h
    simp at h
  | cons a t ih =>
    intro c cs h
    by_cases hfa : f a = true
    · rw [List.filter_cons_of_pos hfa] at h
      injection h with h1 h2
      subst h1
      refine ⟨hfa, List.mem_cons_self a t, ?_⟩
      intro b hb hfb
      simp [List.indexOf_cons_self]
    · rw [List.filter_cons_of_neg (by simpa using hfa)] at h
      obtain ⟨hfc, hmem, hle⟩ := ih c cs h
      have hca : c ≠ a := fun he => hfa (he ▸ hfc)
      refine ⟨hfc, List.mem_cons_of_mem a hmem, ?_⟩
      intro b hb hfb
      rcases List.mem_cons.mp hb with rfl | hbt
      · exact absurd hfb hfa
      · have hba : b ≠ a := fun he => hfa (he ▸ hfb)
        rw [List.indexOf_cons_ne t hca.symm, List.indexOf_cons_ne t hba.symm]
        exact Nat.succ_le_succ (hle b hbt hfb)

theorem indexOf_category (c : CategoryName) :
    category_definitions.indexOf c = declIdx c := by
  cases c <;> rfl

theorem category_mem (c : CategoryName) : c ∈ category_definitions := by
  cases c <;> simp [category_definitions]

/-- C5: when a record satisfies the membership conditions of two category
definitions, determine_category answers a matching category whose
declaration index is at most the index of either match, hence the first
matching category in declaration order. -/
theorem claim_C5_tiebreak (p : Row) (c1 c2 : CategoryName) (_hne : c1 ≠ c2)
    (h1 : categoryMatches p c1 = true) (h2 : categoryMatches p c2 = true) :
    categoryMatches p (determine_category p) = true ∧
    declIdx (determine_category p) ≤ declIdx c1 ∧
    declIdx (determine_category p) ≤ declIdx c2 := by
  have hne : category_definitions.filter (categoryMatches p) ≠ [] := by
    intro hnil
    have : c1 ∈ category_definitions.filter (categoryMatches p) :=
      List.mem_filter.mpr ⟨category_mem c1, h1⟩
    rw [hnil] at this
    exact List.not_mem_nil c1 this
  obtain ⟨c, cs, hfil⟩ :
      ∃ c cs, category_definitions.filter (categoryMatches p) = c :: cs := by
    cases hf : category_definitions.filter (categoryMatches p) with
    | nil => exact absurd hf hne
    | cons c cs => exact ⟨c, cs, rfl⟩
  obtain ⟨hfc, _, hle⟩ := filter_head_least (categoryMatches p)
    category_definitions c cs hfil
  have hdet : determine_category p = c := by
    unfold determine_category
    rw [hfil]
  rw [hdet]
  refine ⟨hfc, ?_, ?_⟩
  · rw [← indexOf_category, ← indexOf_category]
    exact hle c1 (category_mem c1) h1
  · rw [← indexOf_category, ← indexOf_category]
    exact hle c2 (category_mem c2) h2

/-- A row matching both production_ready (complexity 60 in [60,100],
duration 120 at the minimum) and finished_experiments (complexity 60 in
[0,60], duration above 30). -/
def rowC5 : Row :=
  { file_path := "t.als", file_size := 0, last_modified := "",
    ableton_version := "11", track_count := 0, plugin_count := 0,
    effect_count := 0, duration_seconds := 120, bpm := 120,
    key_signature := "C", project_name := "t",
    completion_status := "complete", complexity_score := 60,
    usage_priority := 0, analyzed := true, processed := false,
    category := none, migrated := false, file_hash := "h",
    audio_folder_size := 0, has_midi_tracks := false,
    has_audio_tracks := false, has_automation := false, clip_count := 0,
    session_clip_count := 0, arrangement_clip_count := 0,
    has_arrangement := false, arrangement_duration := 0,
    session_only := false, phase_folder := "" }

unseal Rat.inv Rat.mul Rat.add Rat.sub in
/-- C5, witness: rowC5 matches production_ready and finished_experiments
and is sent to the earlier of the two. -/
theorem claim_C5_tiebreak_witness :
    categoryMatches rowC5 (determine_category rowC5) = true ∧
    declIdx (determine_category rowC5) ≤ declIdx CategoryName.production_ready ∧
    declIdx (determine_category rowC5) ≤ declIdx CategoryName.finished_experiments :=
  claim_C5_tiebreak rowC5 .production_ready .finished_experiments
    (by decide) (by decide) (by decide)

/-- An analyzed row that no category definition matches: its completion
status "unknown" is outside every completion_required list. -/
def rowC4 : Row :=
  { file_path := "u.als", file_size := 0, last_modified := "",
    ableton_version := "11", track_count := 0, plugin_count := 0,
    effect_count := 0, duration_seconds := 0, bpm := 120,
    key_signature := "C", project_name := "u",
    completion_status := "unknown", complexity_score := 10,
    usage_priority := 0, analyzed := true, processed := false,
    category := none, migrated := false, file_hash := "h",
    audio_folder_size := 0, has_midi_tracks := false,
    has_audio_tracks := false, has_automation := false, clip_count := 0,
    session_clip_count := 0, arrangement_clip_count := 0,
    has_arrangement := false, arrangement_duration := 0,
    session_only := false, phase_folder := "" }

unseal Rat.inv Rat.mul Rat.add Rat.sub in
/-- C4: on any store holding an analyzed row the classification run does
not deliver the claimed outcome: the connection carries no row_factory, so
the dict conversion in get_unclassified_projects raises TypeError on the
first fetched tuple, after the reset UPDATE has already committed.  The
run aborts and the store is left with the analyzed row unprocessed and its
category NULL, against the claim that every analyzed row ends the run with
processed = 1 and a non-null category. -/
theorem claim_C4_classifier_crash :
    (classify_all_projects (fun _ => none) [rowC4]).1 =
      Except.error
        "TypeError: cannot convert dictionary update sequence element #0 to a sequence" ∧
    (classify_all_projects (fun _ => none) [rowC4]).2 = [resetRow rowC4] ∧
    (resetRow rowC4).analyzed = true ∧
    (resetRow rowC4).processed = false ∧
    (resetRow rowC4).category = none := by
  refine ⟨rfl, ?_, ?_, ?_, ?_⟩ <;> decide

/-- C10, counterexample: a document declaring the key signature D (the
first KeySignature node carries Value D) is extracted with key C: the
extractor never reads a key signature from the document. -/
def keyTree : XElem :=
  .mk "LiveSet" [] [ .mk "KeySignature" [("Value", "D")] [] ]

unseal Rat.inv Rat.mul Rat.add Rat.sub in
/-- C10, counterexample: keyTree declares key D, yet the extracted key is
the constant default C, refuting the claim that a declared non-C key is
extracted as declared. -/
theorem claim_C10_counterexample :
    ((descTag keyTree "KeySignature").head?.map (fun e => getAttr e "Value")) =
      some (some "D") ∧
    (extract_project_metadata [] "k" keyTree).key = "C" := by
  constructor
  · decide
  · decide

theorem extract_bpm_eq (pp : List String) (stem : String) (tree : XElem) :
    (extract_project_metadata pp stem tree).bpm = bpmOf (liveSetOf tree) := rfl

/-- C10, amended: the tempo is read from the first Manual node nested under
Tempo under MasterTrack, with default 120 when the node is absent, its
Value attribute is absent, or the value fails to parse, and with the parsed
value otherwise; the key signature is never read from the document - the
extracted key is the constant "C" for every document. -/
theorem claim_C10_tempo_key_defaults :
    (∀ (pp : List String) (stem : String) (tree : XElem),
      (extract_project_metadata pp stem tree).key = "C") ∧
    (∀ (pp : List String) (stem : String) (tree : XElem),
      findManualTempo (liveSetOf tree) = none →
      (extract_project_metadata pp stem tree).bpm = 120) ∧
    (∀ (pp : List String) (stem : String) (tree : XElem) (e : XElem),
      findManualTempo (liveSetOf tree) = some e →
      getAttr e "Value" = none →
      (extract_project_metadata pp stem tree).bpm = 120) ∧
    (∀ (pp : List String) (stem : String) (tree : XElem) (e : XElem) (s : String),
      findManualTempo (liveSetOf tree) = some e →
      getAttr e "Value" = some s →
      pyFloat? s = none →
      (extract_project_metadata pp stem tree).bpm = 120) ∧
    (∀ (pp : List String) (stem : String) (tree : XElem) (e : XElem)
        (s : String) (v : ℚ),
      findManualTempo (liveSetOf tree) = some e →
      getAttr e "Value" = some s →
      pyFloat? s = some v →
      (extract_project_metadata pp stem tree).bpm = v) := by
  refine ⟨fun pp stem tree => rfl, ?_, ?_, ?_, ?_⟩
  · intro pp stem tree hnone
    rw [extract_bpm_eq]
    unfold bpmOf
    rw [hnone]
  · intro pp stem tree e he hval
    rw [extract_bpm_eq]
    unfold bpmOf
    simp only [he, hval]
  · intro pp stem tree e s he hval hparse
    rw [extract_bpm_eq]
    unfold bpmOf
    simp only [he, hval, hparse, Option.getD_none]
  · intro pp stem tree e s v he hval hparse
    rw [extract_bpm_eq]
    unfold bpmOf
    simp only [he, hval, hparse, Option.getD_some]

/-- A document with no tempo node at all. -/
def treeNoTempo : XElem := .mk "LiveSet" [] []

/-- A document whose Manual tempo node lacks a Value attribute. -/
def treeNoValue : XElem :=
  .mk "LiveSet" []
    [ .mk "MasterTrack" [] [ .mk "Tempo" [] [ .mk "Manual" [] [] ] ] ]

/-- A document whose Manual tempo value fails to parse. -/
def treeBadValue : XElem :=
  .mk "LiveSet" []
    [ .mk "MasterTrack" [] [ .mk "Tempo" [] [ .mk "Manual" [("Value", "abc")] [] ] ] ]

/-- A document declaring the parsable tempo 95. -/
def tree95 : XElem :=
  .mk "LiveSet" []
    [ .mk "MasterTrack" [] [ .mk "Tempo" [] [ .mk "Manual" [("Value", "95")] [] ] ] ]

unseal Rat.inv Rat.mul Rat.add Rat.sub in
/-- C10, witness: the key default on keyTree and the four tempo branches on
four concrete documents. -/
theorem claim_C10_tempo_key_defaults_witness :
    (extract_project_metadata [] "k" keyTree).key = "C" ∧
    (extract_project_metadata [] "a" treeNoTempo).bpm = 120 ∧
    (extract_project_metadata [] "b" treeNoValue).bpm = 120 ∧
    (extract_project_metadata [] "c" treeBadValue).bpm = 120 ∧
    (extract_project_metadata [] "d" tree95).bpm = 95 :=
  ⟨claim_C10_tempo_key_defaults.1 [] "k" keyTree,
   claim_C10_tempo_key_defaults.2.1 [] "a" treeNoTempo rfl,
   claim_C10_tempo_key_defaults.2.2.1 [] "b" treeNoValue
     (XElem.mk "Manual" [] []) rfl rfl,
   claim_C10_tempo_key_defaults.2.2.2.1 [] "c" treeBadValue
     (XElem.mk "Manual" [("Value", "abc")] []) "abc" rfl rfl (by decide),
   claim_C10_tempo_key_defaults.2.2.2.2 [] "d" tree95
     (XElem.mk "Manual" [("Value", "95")] []) "95" 95 rfl rfl (by decide)⟩

end AbletonOrganizer
